import Mathlib

/-!
Verification development for the native-timer crate (ruxo/native-timer).

Shallow embedding of the callback cell (src/common.rs), the signal-based
backend (src/unix.rs) and the thread-pool backend (src/windows.rs).
Durations are modelled as natural numbers of nanoseconds, matching
std::time::Duration (as_nanos / as_millis are truncating divisions).

Note on module resolution: the tree also carries stale copies
src/unix/mod.rs and src/windows/mod.rs whose types (MutWrapper with two
lifetimes, RwLock-based deletion flag, no TimerQueueCore) do not match
src/common.rs; src/unix.rs and src/windows.rs are the files consistent
with src/common.rs and src/lib.rs, so they are the ones embedded here.
-/

-- ==================== Durations and shared constants (src/timer.rs) ====================

/-- Nanoseconds per millisecond, for Duration::as_millis. -/
def NANOS_PER_MILLI : Nat := 1000000

/-- Duration::as_millis: whole milliseconds, truncating division. The
Duration itself is a count of nanoseconds. -/
def duration_as_millis (ns : Nat) : Nat := ns / NANOS_PER_MILLI

/-- Rust cast `as u32`: reduction modulo 2^32. -/
def u32_cast (n : Nat) : Nat := n % 4294967296

/-- src/timer.rs: DEFAULT_ACCEPTABLE_EXECUTION_TIME = Duration::from_secs(1),
as nanoseconds. -/
def DEFAULT_ACCEPTABLE_EXECUTION_TIME : Nat := 1000000000

/-- src/timer.rs: CallbackHint. SlowFunction carries the longest expected
execution time (nanoseconds). -/
inductive CallbackHint where
  | QuickFunction : CallbackHint
  | SlowFunction : Nat → CallbackHint
deriving DecidableEq

/-- src/timer.rs: TimerError. -/
inductive TimerError where
  | OsError : Int → String → TimerError
  | SynchronizationBroken : TimerError
deriving DecidableEq

-- ==================== Callback cell (src/common.rs) ====================

/-- src/common.rs FType: the callback body. The closure itself is abstracted
away; what matters for the claims is which variant is stored, since call()
branches on it and OneShot bodies are take-and-cleared. -/
inductive FType where
  | none : FType
  | mut : FType
  | once : FType
deriving DecidableEq

/-- src/common.rs MutWrapper. idle is the WaitEvent i32 in-flight counter,
mark_deleted the AtomicBool deletion flag. The main_queue field
(Arc TimerQueueCore) is omitted: it only lets the notification handler reach
the dispatcher of its queue, which is modelled directly in timer_callback. -/
structure MutWrapper where
  hint : Option CallbackHint
  idle : Int
  mark_deleted : Bool
  f : FType
deriving DecidableEq

/-- src/common.rs MutWrapper::new: fresh cell with a Repeatable (FnMut) body. -/
def MutWrapper.new (hint : Option CallbackHint) : MutWrapper :=
  { hint := hint, idle := 0, mark_deleted := false, f := FType.mut }

/-- src/common.rs MutWrapper::new_once: fresh cell with a OneShot (FnOnce) body. -/
def MutWrapper.new_once (hints : Option CallbackHint) : MutWrapper :=
  { hint := hints, idle := 0, mark_deleted := false, f := FType.once }

/-- src/common.rs MutWrapper::mark_delete: store true into the deletion flag. -/
def MutWrapper.mark_delete (w : MutWrapper) : MutWrapper :=
  { w with mark_deleted := true }

/-- src/common.rs CriticalSection::start: increment the in-flight counter. -/
def CriticalSection.start (idle : Int) : Int := idle + 1

/-- src/common.rs impl Drop for CriticalSection: decrement, with the
assertion that the decremented value is nonnegative. Returns the new counter
value and whether the assertion held. -/
def CriticalSection.stop (idle : Int) : Int × Bool :=
  (idle - 1, decide (0 ≤ idle - 1))

/-- Result of one entry of MutCallable::call on a cell.
invoked counts entries into the user closure made by this call (0 or 1);
panicked records whether the closure raised and the call unwound;
idleWhileExecuting is the in-flight counter value observed between the
increment and the decrement; assertOk is the CriticalSection drop assertion. -/
structure CallResult where
  state : MutWrapper
  invoked : Nat
  panicked : Bool
  idleWhileExecuting : Int
  assertOk : Bool
deriving DecidableEq

/-- src/common.rs MutCallable::call for MutWrapper (lines 107-123):
start the critical section (increment in-flight), load the deletion flag,
and only when it is clear run the body: a OneShot body is first replaced by
None (mem::replace) and then invoked, a Repeatable body is invoked in place,
an empty body does nothing. The critical-section drop guard decrements the
counter on every exit path, including when the closure panics
(closurePanics models whether the user closure raises). -/
def MutCallable.call (w : MutWrapper) (closurePanics : Bool) : CallResult :=
  let idle1 := CriticalSection.start w.idle
  let is_deleted := w.mark_deleted
  let f2 : FType :=
    if is_deleted then w.f
    else
      match w.f with
      | FType.once => FType.none
      | FType.mut => FType.mut
      | FType.none => FType.none
  let inv : Nat :=
    if is_deleted then 0
    else
      match w.f with
      | FType.once => 1
      | FType.mut => 1
      | FType.none => 0
  let pan : Bool :=
    if is_deleted then false
    else
      match w.f with
      | FType.once => closurePanics
      | FType.mut => closurePanics
      | FType.none => false
  let stopped := CriticalSection.stop idle1
  { state := { w with idle := stopped.1, f := f2 },
    invoked := inv,
    panicked := pan,
    idleWhileExecuting := idle1,
    assertOk := stopped.2 }

/-- An operation applied to a callback cell: an entry of call() from some
dispatch context (with the closure possibly panicking), or mark_delete from
the teardown path. -/
inductive CellOp where
  | callOp : Bool → CellOp
  | markDeleteOp : CellOp
deriving DecidableEq

/-- Apply one cell operation; returns the new cell and how many user-closure
invocations the operation performed. -/
def applyOp (w : MutWrapper) : CellOp → MutWrapper × Nat
  | CellOp.callOp p => ((MutCallable.call w p).state, (MutCallable.call w p).invoked)
  | CellOp.markDeleteOp => (w.mark_delete, 0)

/-- Run a sequence of cell operations, accumulating the total number of
user-closure invocations. -/
def runOps (w : MutWrapper) : List CellOp → MutWrapper × Nat
  | [] => (w, 0)
  | op :: rest =>
    let step := applyOp w op
    let tail := runOps step.1 rest
    (tail.1, step.2 + tail.2)


-- ==================== Teardown (src/unix.rs close_timer, src/windows.rs close_timer) ====================

/-- Observable steps of the teardown protocol, in the order the destroying
thread performs them. waitForIdle carries the wait bound in nanoseconds. -/
inductive TeardownEvent where
  | waitForIdle : Nat → TeardownEvent
  | abortProcess : TeardownEvent
  | setDeleted : TeardownEvent
  | timerDelete : TeardownEvent
  | logDeleteError : TeardownEvent
  | changePeriodZero : TeardownEvent
  | deleteTimerAsync : TeardownEvent
deriving DecidableEq

/-- src/unix.rs close_timer lines 56-59: the acceptable execution time is the
SlowFunction bound when hinted slow, otherwise the crate default. -/
def unix_acceptable_execution_time (hint : Option CallbackHint) : Nat :=
  match hint with
  | some (CallbackHint.SlowFunction d) => d
  | _ => DEFAULT_ACCEPTABLE_EXECUTION_TIME

/-- src/unix.rs close_timer (lines 55-76) as the sequence of steps it
performs. try_write_for on the deletion flag lock first waits, bounded by the
acceptable execution time, for exclusive access (in-flight executions hold
the read side); on timeout (lockAcquired = false) the process is aborted; on
success the deleted flag is stored and then timer_delete both disarms and
releases the native timer in a single call, a failure (deleteFails) being
only logged. The callback cell is freed by the caller after this returns. -/
def unix_close_timer (hint : Option CallbackHint) (lockAcquired : Bool) (deleteFails : Bool) :
    List TeardownEvent :=
  let aet := unix_acceptable_execution_time hint
  if lockAcquired then
    [TeardownEvent.waitForIdle aet, TeardownEvent.setDeleted, TeardownEvent.timerDelete]
      ++ (if deleteFails then [TeardownEvent.logDeleteError] else [])
  else
    [TeardownEvent.waitForIdle aet, TeardownEvent.abortProcess]

/-- src/windows.rs get_acceptable_execution_time (lines 83-88). -/
def windows_get_acceptable_execution_time (hint : Option CallbackHint) : Nat :=
  match hint with
  | some CallbackHint.QuickFunction => DEFAULT_ACCEPTABLE_EXECUTION_TIME
  | some (CallbackHint.SlowFunction t) => t
  | none => DEFAULT_ACCEPTABLE_EXECUTION_TIME

/-- Modelled from the spec: src/windows.rs close_timer (line 65) calls
callback.mark_delete(acceptable_execution_time), but the Duration-taking
form of mark_delete is not present under src (src/common.rs mark_delete
takes no argument). Per the spec, markDeleted stores the flag once and
waitIdle blocks, bounded by the acceptable execution time, until the
in-flight count is zero, a timeout being fatal (process abort). -/
def windows_mark_delete (aet : Nat) (idleReached : Bool) : List TeardownEvent :=
  if idleReached then
    [TeardownEvent.setDeleted, TeardownEvent.waitForIdle aet]
  else
    [TeardownEvent.setDeleted, TeardownEvent.waitForIdle aet, TeardownEvent.abortProcess]

/-- src/windows.rs close_timer (lines 64-78): mark_delete with the
acceptable execution time, then ChangeTimerQueueTimer(queue, handle, 0, 0)
to ensure no callback during destruction, then DeleteTimerQueueTimer with no
completion event (asynchronous deletion); a deletion failure other than
ERROR_IO_PENDING is only logged. -/
def windows_close_timer (aet : Nat) (idleReached deleteFails ioPending : Bool) :
    List TeardownEvent :=
  windows_mark_delete aet idleReached ++
    (if idleReached then
      [TeardownEvent.changePeriodZero, TeardownEvent.deleteTimerAsync]
        ++ (if deleteFails && !ioPending then [TeardownEvent.logDeleteError] else [])
     else [])

/-- Helper for the spec-order predicate: scan a teardown trace remembering
whether a setDeleted and a disarm step (timerDelete or changePeriodZero)
have already occurred, and require every waitForIdle to come after both. -/
def specOrderScan : Bool → Bool → List TeardownEvent → Bool
  | _, _, [] => true
  | marked, disarmed, e :: rest =>
    match e with
    | TeardownEvent.setDeleted => specOrderScan true disarmed rest
    | TeardownEvent.timerDelete => specOrderScan marked true rest
    | TeardownEvent.changePeriodZero => specOrderScan marked true rest
    | TeardownEvent.waitForIdle _ => marked && disarmed && specOrderScan marked disarmed rest
    | _ => specOrderScan marked disarmed rest

/-- Formalisation of the order the claim states, written from the spec words
(markDeleted, then disarm, then waitIdle): every wait for the in-flight
count happens after the deleted flag has been set and after the OS timer has
been disarmed. To be compared with the traces of the close_timer functions
embedded from the source. -/
def specClaim_wait_after_mark_and_disarm (tr : List TeardownEvent) : Bool :=
  specOrderScan false false tr


/-- Number of bounded idle waits in a teardown trace (a retried wait would
show up as more than one). -/
def countWait (tr : List TeardownEvent) : Nat :=
  (tr.filter fun e =>
    match e with
    | TeardownEvent.waitForIdle _ => true
    | _ => false).length

-- ==================== Signal-backend scheduling (src/unix.rs) ====================

/-- Return values of the native calls made by schedule_signal_callback, plus
the errno state consulted on failure. Zero means success for each call,
matching the libc contracts used through to_result. -/
structure OsEnv where
  sigemptyset_ret : Int
  sigaction_ret : Int
  timer_create_ret : Int
  timer_settime_ret : Int
  errno : Int
  errno_message : String
deriving DecidableEq

/-- src/unix.rs get_errno / to_error: the propagated error carries the errno
code and the strerror message. -/
def get_errno (env : OsEnv) : TimerError :=
  TimerError.OsError env.errno env.errno_message

/-- src/unix.rs to_result: 0 is Ok, anything else reads errno. -/
def to_result (env : OsEnv) (ret : Int) : Except TimerError Unit :=
  if ret = 0 then Except.ok () else Except.error (get_errno env)

/-- Abstract native timer handle produced by a successful timer_create. -/
def timerHandleId : Nat := 1

/-- Outcome of TimerQueue::schedule_signal_callback: the returned Result and
whether the native timer object was created (timer_create succeeded) and
whether it was ever deleted inside the function (the source never calls
timer_delete there). -/
structure SignalScheduleOutcome where
  result : Except TimerError Nat
  timerCreated : Bool
  timerDeleted : Bool

/-- src/unix.rs TimerQueue::schedule_signal_callback (lines 180-211):
sigemptyset, sigaction, timer_create, timer_settime in sequence, each
early-returning the errno-derived OsError on failure. When timer_settime
fails after timer_create succeeded, the function returns the error without
deleting the timer it just created. -/
def schedule_signal_callback (env : OsEnv) : SignalScheduleOutcome :=
  match to_result env env.sigemptyset_ret with
  | Except.error e => { result := Except.error e, timerCreated := false, timerDeleted := false }
  | Except.ok _ =>
  match to_result env env.sigaction_ret with
  | Except.error e => { result := Except.error e, timerCreated := false, timerDeleted := false }
  | Except.ok _ =>
  match to_result env env.timer_create_ret with
  | Except.error e => { result := Except.error e, timerCreated := false, timerDeleted := false }
  | Except.ok _ =>
  match to_result env env.timer_settime_ret with
  | Except.error e => { result := Except.error e, timerCreated := true, timerDeleted := false }
  | Except.ok _ => { result := Except.ok timerHandleId, timerCreated := true, timerDeleted := false }

/-- A native timer object is leaked by the scheduling call when the call
failed yet the created timer was never deleted. -/
def timerLeaked (o : SignalScheduleOutcome) : Bool :=
  (match o.result with | Except.ok _ => false | Except.error _ => true)
    && o.timerCreated && !o.timerDeleted

/-- Abstract address of the boxed callback cell (Box::into_raw). -/
def cellPtrId : Nat := 2

/-- Outcome of TimerQueue::fire_oneshot on the signal backend: the returned
Result, whether the cell was boxed, whether ownership of the cell was either
freed or handed to a path that will free it, and the value written to the
handoff slot (the journal WaitEvent). -/
structure FireOneshotOutcome where
  result : Except TimerError Unit
  cellAllocated : Bool
  cellReleased : Bool
  slotWritten : Option (Nat × Nat)

/-- src/unix.rs TimerQueue::fire_oneshot (lines 128-152): create_timer boxes
the cell and obtains the creation result; Box::into_raw then unconditionally
turns the cell into a raw pointer; on Ok the pair (handle, cell pointer) is
written to the handoff slot, handing cell ownership to the wrapper closure
which will reclaim and free it during self-teardown; on Err the raw cell
pointer is discarded without reclamation and the error is returned. -/
def fire_oneshot (env : OsEnv) : FireOneshotOutcome :=
  let sched := schedule_signal_callback env
  match sched.result with
  | Except.ok h =>
      { result := Except.ok (), cellAllocated := true, cellReleased := true,
        slotWritten := some (h, cellPtrId) }
  | Except.error e =>
      { result := Except.error e, cellAllocated := true, cellReleased := false,
        slotWritten := none }

-- ==================== fire_oneshot handoff and self-teardown (src/unix.rs 128-152) ====================

/-- Thread on which a step of the fire-oneshot wrapper closure runs. -/
inductive ThreadTag where
  | firingThread : ThreadTag
  | teardownWorker : ThreadTag
deriving DecidableEq

/-- Steps taken by the fire-oneshot wrapper closure. -/
inductive OneshotEvent where
  | handlerRun : OneshotEvent
  | slotRead : Nat → Nat → OneshotEvent
  | cellReclaimed : Nat → OneshotEvent
  | teardownCloseTimer : Nat → OneshotEvent
deriving DecidableEq

/-- The wrapper closure of fire_oneshot (src/unix.rs lines 133-142), as the
tagged trace of its steps given the eventual content of the handoff slot:
run the user handler, then journal.wait_reset blocks until the slot holds a
value (when the slot is never filled the closure blocks forever after the
handler: the trace ends), then a freshly spawned thread reclaims the cell
from the raw pointer and runs close_timer on the handle. -/
def oneshot_wrapper_trace (slot : Option (Nat × Nat)) : List (ThreadTag × OneshotEvent) :=
  (ThreadTag.firingThread, OneshotEvent.handlerRun) ::
    match slot with
    | none => []
    | some (h, p) =>
        [(ThreadTag.firingThread, OneshotEvent.slotRead h p),
         (ThreadTag.teardownWorker, OneshotEvent.cellReclaimed p),
         (ThreadTag.teardownWorker, OneshotEvent.teardownCloseTimer h)]

/-- Teardown steps of the wrapper trace that run on the firing thread; the
claim is that there are none. -/
def teardownStepsOnFiringThread (tr : List (ThreadTag × OneshotEvent)) :
    List (ThreadTag × OneshotEvent) :=
  tr.filter fun e =>
    (match e.2 with
     | OneshotEvent.cellReclaimed _ => true
     | OneshotEvent.teardownCloseTimer _ => true
     | _ => false)
    && (match e.1 with
        | ThreadTag.firingThread => true
        | ThreadTag.teardownWorker => false)

-- ==================== Notification handler and dispatch (src/unix.rs 213-228) ====================

/-- The dispatch decision the signal handler takes for an expired timer. -/
inductive DispatchDecision where
  | spawnDedicatedThread : Nat → DispatchDecision
  | sendToQuickDispatcher : Nat → DispatchDecision
deriving DecidableEq

/-- src/unix.rs TimerQueue::timer_callback (lines 220-228): recover the cell
reference from the signal payload, read its hint, and either spawn a
dedicated thread (SlowFunction) or forward the reference to the shared
quick-dispatch channel (QuickFunction or no hint). The cell itself is
returned untouched: no user logic runs inside the notification handler. -/
def timer_callback (w : MutWrapper) (ctx : Nat) : DispatchDecision × MutWrapper :=
  (match w.hint with
   | some (CallbackHint.SlowFunction _) => DispatchDecision.spawnDedicatedThread ctx
   | _ => DispatchDecision.sendToQuickDispatcher ctx,
   w)

/-- The quick-dispatch worker thread (src/unix.rs lines 95-99): a loop that
takes each queued reference in FIFO order and runs the cell call to
completion before taking the next; the cell state is threaded through the
calls sequentially. Returns the final cell and the per-request invocation
counts in execution order. -/
def quick_worker_run (w : MutWrapper) : List Bool → MutWrapper × List Nat
  | [] => (w, [])
  | p :: rest =>
    let r := MutCallable.call w p
    let tail := quick_worker_run r.state rest
    (tail.1, r.invoked :: tail.2)

-- ==================== Timer handles and drop (src/unix.rs 238-244, src/windows.rs 186-199) ====================

/-- src/unix.rs Timer: the optional native handle and the owned cell. -/
structure UnixTimer where
  handle : Option Nat
  callback : MutWrapper
deriving DecidableEq

/-- src/unix.rs impl Drop for Timer (lines 238-244): Option::take the handle;
when it was present run close_timer, otherwise do nothing. Returns the timer
state afterwards and the teardown steps performed. -/
def UnixTimer.close (t : UnixTimer) (lockAcquired deleteFails : Bool) :
    UnixTimer × List TeardownEvent :=
  match t.handle with
  | some _ =>
      ({ handle := none,
         callback := if lockAcquired then t.callback.mark_delete else t.callback },
       unix_close_timer t.callback.hint lockAcquired deleteFails)
  | none => (t, [])

/-- src/windows.rs Timer: queue and timer handles (0 models an invalid
HANDLE, the default), the owned cell, and the acceptable execution time
computed at scheduling. -/
structure WindowsTimer where
  handle : Nat
  callback : MutWrapper
  acceptable_execution_time : Nat
deriving DecidableEq

/-- src/windows.rs impl Drop for Timer (lines 192-199): when the handle is
not invalid, run close_timer and reset the handle to the default (invalid)
value; otherwise do nothing. -/
def WindowsTimer.close (t : WindowsTimer) (idleReached deleteFails ioPending : Bool) :
    WindowsTimer × List TeardownEvent :=
  if t.handle ≠ 0 then
    ({ t with handle := 0, callback := t.callback.mark_delete },
     windows_close_timer t.acceptable_execution_time idleReached deleteFails ioPending)
  else (t, [])

-- ==================== Thread-pool backend argument conversion (src/windows.rs 60-62, 144-167) ====================

/-- Windows thread-pool timer flags (windows crate constants). -/
def WT_EXECUTEDEFAULT : Nat := 0

def WT_EXECUTEONLYONCE : Nat := 8

def WT_EXECUTELONGFUNCTION : Nat := 16

def WT_EXECUTEINPERSISTENTTHREAD : Nat := 128

/-- Arguments handed to CreateTimerQueueTimer. -/
structure CreateTimerArgs where
  dueMs : Nat
  periodMs : Nat
  flags : Nat
deriving DecidableEq

/-- src/windows.rs TimerQueue::create_timer (lines 144-167): period is
converted by Duration::as_millis then cast to u32; the hint picks the base
execution flag; when the converted period is 0 the WT_EXECUTEONLYONCE flag
is or-ed in; due is converted the same way at the CreateTimerQueueTimer call. -/
def windows_create_timer_args (due period : Nat) (hint : Option CallbackHint) :
    CreateTimerArgs :=
  let period32 := u32_cast (duration_as_millis period)
  let option :=
    match hint with
    | some CallbackHint.QuickFunction => WT_EXECUTEINPERSISTENTTHREAD
    | some (CallbackHint.SlowFunction _) => WT_EXECUTELONGFUNCTION
    | none => WT_EXECUTEDEFAULT
  let option := if period32 = 0 then option ||| WT_EXECUTEONLYONCE else option
  { dueMs := u32_cast (duration_as_millis due), periodMs := period32, flags := option }

/-- src/windows.rs change_period (lines 60-62): both Durations are converted
by as_millis then cast to u32 for ChangeTimerQueueTimer. -/
def windows_change_period_args (due period : Nat) : Nat × Nat :=
  (u32_cast (duration_as_millis due), u32_cast (duration_as_millis period))


-- ==================== Helper lemmas ====================

/-- call never changes the deletion flag. -/
theorem call_preserves_mark_deleted (w : MutWrapper) (p : Bool) :
    (MutCallable.call w p).state.mark_deleted = w.mark_deleted := rfl

/-- On a cell whose deletion flag is set, call performs no closure
invocation and leaves the body untouched. -/
theorem call_deleted_no_invocation (w : MutWrapper) (p : Bool) (h : w.mark_deleted = true) :
    (MutCallable.call w p).invoked = 0 ∧ (MutCallable.call w p).state.f = w.f := by
  constructor <;> simp [MutCallable.call, h]

/-- Once the deletion flag is set, an arbitrary further operation sequence
performs zero invocations and the flag stays set. -/
theorem runOps_deleted (w : MutWrapper) (ops : List CellOp) (h : w.mark_deleted = true) :
    (runOps w ops).2 = 0 ∧ (runOps w ops).1.mark_deleted = true := by
  induction ops generalizing w with
  | nil => simpa [runOps] using h
  | cons op rest ih =>
    cases op with
    | callOp p =>
      have hs : (MutCallable.call w p).state.mark_deleted = true := by
        rw [call_preserves_mark_deleted]; exact h
      have hrest := ih _ hs
      have hi := (call_deleted_no_invocation w p h).1
      simp [runOps, applyOp, hi, hrest.1, hrest.2]
    | markDeleteOp =>
      have hrest := ih (w.mark_delete) rfl
      simp [runOps, applyOp, hrest.1, hrest.2]

/-- A cell whose body is already None never invokes anything, whatever the
further operations are, and its body stays None. -/
theorem runOps_body_none (w : MutWrapper) (ops : List CellOp) (h : w.f = FType.none) :
    (runOps w ops).2 = 0 ∧ (runOps w ops).1.f = FType.none := by
  induction ops generalizing w with
  | nil => simpa [runOps] using h
  | cons op rest ih =>
    cases op with
    | callOp p =>
      have hs : (MutCallable.call w p).state.f = FType.none := by
        simp [MutCallable.call, h]
      have hi : (MutCallable.call w p).invoked = 0 := by
        simp [MutCallable.call, h]
      have hrest := ih _ hs
      simp [runOps, applyOp, hi, hrest.1, hrest.2]
    | markDeleteOp =>
      have hrest := ih (w.mark_delete) h
      simp [runOps, applyOp, hrest.1, hrest.2]

-- ==================== Claim theorems ====================

/-- C1: once the deleted flag has been set, any subsequent entry of call()
returns without invoking the user closure, and any further sequence of cell
operations (calls from dispatch contexts, repeated mark_delete) performs
zero invocations — so a timer whose cell is marked deleted before its due
time produces zero invocations. -/
theorem C1_deleted_flag_stops_invocations (w : MutWrapper) (p : Bool) (ops : List CellOp)
    (h : w.mark_deleted = true) :
    (MutCallable.call w p).invoked = 0 ∧ (runOps w ops).2 = 0 :=
  ⟨(call_deleted_no_invocation w p h).1, (runOps_deleted w ops h).1⟩

/-- Witness for C1 at a concrete cell: a fresh Repeatable cell marked
deleted, then entered twice. -/
theorem C1_deleted_flag_stops_invocations_witness :
    ((MutWrapper.new none).mark_delete).mark_deleted = true
  ∧ ((MutCallable.call ((MutWrapper.new none).mark_delete) false).invoked = 0
     ∧ (runOps ((MutWrapper.new none).mark_delete)
          [CellOp.callOp false, CellOp.callOp true]).2 = 0) :=
  ⟨by decide,
   C1_deleted_flag_stops_invocations ((MutWrapper.new none).mark_delete) false
     [CellOp.callOp false, CellOp.callOp true] (by decide)⟩

/-- C2: a cell whose body is OneShot executes the user closure at most once
across any sequence of call() entries and mark_delete operations: the first
executing entry take-and-clears the body to None, and every later entry
finds None and does nothing. -/
theorem C2_oneshot_at_most_once (w : MutWrapper) (ops : List CellOp)
    (h : w.f = FType.once) :
    (runOps w ops).2 ≤ 1 := by
  induction ops generalizing w with
  | nil => simp [runOps]
  | cons op rest ih =>
    cases op with
    | markDeleteOp =>
      have := ih (w.mark_delete) h
      simpa [runOps, applyOp] using this
    | callOp p =>
      cases hd : w.mark_deleted with
      | true =>
        have hs : (MutCallable.call w p).state.f = FType.once := by
          rw [(call_deleted_no_invocation w p hd).2, h]
        have hi := (call_deleted_no_invocation w p hd).1
        have := ih _ hs
        simpa [runOps, applyOp, hi] using this
      | false =>
        have hs : (MutCallable.call w p).state.f = FType.none := by
          simp [MutCallable.call, hd, h]
        have hi : (MutCallable.call w p).invoked = 1 := by
          simp [MutCallable.call, hd, h]
        have hrest := (runOps_body_none _ rest hs).1
        simp [runOps, applyOp, hi, hrest]

/-- Witness for C2 at a concrete cell: a fresh OneShot cell entered three
times invokes exactly at most once. -/
theorem C2_oneshot_at_most_once_witness :
    (MutWrapper.new_once none).f = FType.once
  ∧ (runOps (MutWrapper.new_once none)
       [CellOp.callOp false, CellOp.callOp false, CellOp.callOp true]).2 ≤ 1 :=
  ⟨by decide,
   C2_oneshot_at_most_once (MutWrapper.new_once none)
     [CellOp.callOp false, CellOp.callOp false, CellOp.callOp true] (by decide)⟩

/-- C3 counterexample: at the concrete input (no hint, lock acquired,
timer_delete succeeding), the teardown trace of src/unix.rs close_timer does
not satisfy the claimed ordering that the wait for in-flight invocations
happens after the deleted flag is set and after the disarm: the bounded wait
is the first step of the trace. -/
theorem C3_claimed_order_counterexample :
    specClaim_wait_after_mark_and_disarm (unix_close_timer none true false) = false := by
  decide

/-- C3 (amended): teardown on the signal backend (src/unix.rs close_timer)
performs, in this order: a wait bounded by the acceptable execution time to
gain exclusive access to the deletion flag (the wait for in-flight
executions), then — when the wait succeeds — setting the deleted flag
followed by timer_delete, which disarms and releases the native handle in a
single call, a failure being only logged; when the wait times out the
process aborts. On the thread-pool backend (src/windows.rs close_timer,
with the Duration-taking mark_delete modelled from the spec) the order is:
set the deleted flag, wait bounded by the acceptable execution time
(aborting on timeout), then disarm via ChangeTimerQueueTimer(0,0) and
request asynchronous deletion. On both backends exactly one bounded wait
occurs and it does not come after both the flag store and the disarm; the
cell is freed by the caller afterwards. -/
theorem C3_teardown_order (hint : Option CallbackHint) (aet : Nat) (fails ioPending : Bool) :
    (unix_close_timer hint true fails).take 3 =
      [TeardownEvent.waitForIdle (unix_acceptable_execution_time hint),
       TeardownEvent.setDeleted, TeardownEvent.timerDelete]
  ∧ unix_close_timer hint false fails =
      [TeardownEvent.waitForIdle (unix_acceptable_execution_time hint),
       TeardownEvent.abortProcess]
  ∧ countWait (unix_close_timer hint true fails) = 1
  ∧ specClaim_wait_after_mark_and_disarm (unix_close_timer hint true fails) = false
  ∧ (windows_close_timer aet true fails ioPending).take 4 =
      [TeardownEvent.setDeleted, TeardownEvent.waitForIdle aet,
       TeardownEvent.changePeriodZero, TeardownEvent.deleteTimerAsync]
  ∧ countWait (windows_close_timer aet true fails ioPending) = 1
  ∧ specClaim_wait_after_mark_and_disarm (windows_close_timer aet true fails ioPending) = false := by
  cases fails <;> cases ioPending <;>
    exact ⟨rfl, rfl, rfl, rfl, rfl, rfl, rfl⟩

/-- C4: when the bounded wait of teardown does not succeed within the
acceptable execution time, the process is aborted: the trace ends at the
abort immediately after the single bounded wait — the timeout is not
retried (exactly one wait), not swallowed (nothing runs after the abort),
and close_timer has no error return at all. Holds for the signal backend
and, with the Duration-taking mark_delete modelled from the spec, for the
thread-pool backend. -/
theorem C4_idle_wait_timeout_aborts (hint : Option CallbackHint) (aet : Nat)
    (fails ioPending : Bool) :
    unix_close_timer hint false fails =
      [TeardownEvent.waitForIdle (unix_acceptable_execution_time hint),
       TeardownEvent.abortProcess]
  ∧ countWait (unix_close_timer hint false fails) = 1
  ∧ windows_close_timer aet false fails ioPending =
      [TeardownEvent.setDeleted, TeardownEvent.waitForIdle aet,
       TeardownEvent.abortProcess]
  ∧ countWait (windows_close_timer aet false fails ioPending) = 1 :=
  ⟨rfl, rfl, rfl, rfl⟩

/-- Environment where every native call up to and including timer_create
succeeds and timer_settime fails with EINVAL. -/
def settimeFailEnv : OsEnv :=
  { sigemptyset_ret := 0, sigaction_ret := 0, timer_create_ret := 0,
    timer_settime_ret := -1, errno := 22, errno_message := "Invalid argument" }

/-- Environment where timer_create itself fails with ENOMEM. -/
def createFailEnv : OsEnv :=
  { sigemptyset_ret := 0, sigaction_ret := 0, timer_create_ret := -1,
    timer_settime_ret := 0, errno := 12, errno_message := "Cannot allocate memory" }

/-- C5: evaluation of the failing creation paths. When timer_settime fails
after timer_create succeeded, schedule_signal_callback returns the OsError
but the native timer it created is never deleted — it remains allocated,
contradicting the claim that no native timer object remains live. And on
fire_oneshot, when creation fails, the cell that was already turned into a
raw pointer by Box::into_raw is never reclaimed: the OsError is returned
with the cell still allocated and not released, contradicting the claim
that the callback cell is freed. -/
theorem C5_error_paths_leak :
    (schedule_signal_callback settimeFailEnv).result
        = Except.error (TimerError.OsError 22 "Invalid argument")
  ∧ timerLeaked (schedule_signal_callback settimeFailEnv) = true
  ∧ (fire_oneshot createFailEnv).result
        = Except.error (TimerError.OsError 12 "Cannot allocate memory")
  ∧ (fire_oneshot createFailEnv).cellAllocated = true
  ∧ (fire_oneshot createFailEnv).cellReleased = false :=
  ⟨rfl, rfl, rfl, rfl, rfl⟩

/-- C6: every entry of call() increments the in-flight counter before
consulting the deleted flag (the counter observed while the body may run is
the prior value plus one, whatever the flag says) and decrements it on every
exit path, including when the user closure panics (the decrement lives in
the CriticalSection drop guard, so the same equations hold for a panicking
closure): the counter returns to its prior value, never becomes negative,
and the assertion in the decrement never fails. -/
theorem C6_inflight_counter_balanced (w : MutWrapper) (p : Bool) (h : 0 ≤ w.idle) :
    (MutCallable.call w p).idleWhileExecuting = w.idle + 1
  ∧ (MutCallable.call w p).state.idle = w.idle
  ∧ 0 ≤ (MutCallable.call w p).state.idle
  ∧ (MutCallable.call w p).assertOk = true := by
  refine ⟨rfl, ?_, ?_, ?_⟩
  · show (CriticalSection.stop (CriticalSection.start w.idle)).1 = w.idle
    simp [CriticalSection.stop, CriticalSection.start]
  · show 0 ≤ (CriticalSection.stop (CriticalSection.start w.idle)).1
    simp [CriticalSection.stop, CriticalSection.start]
    omega
  · show (CriticalSection.stop (CriticalSection.start w.idle)).2 = true
    simp [CriticalSection.stop, CriticalSection.start]
    omega

/-- Witness for C6 at a concrete cell with a panicking closure. -/
theorem C6_inflight_counter_balanced_witness :
    (0 : Int) ≤ (MutWrapper.new none).idle
  ∧ ((MutCallable.call (MutWrapper.new none) true).idleWhileExecuting
        = (MutWrapper.new none).idle + 1
     ∧ (MutCallable.call (MutWrapper.new none) true).state.idle = (MutWrapper.new none).idle
     ∧ 0 ≤ (MutCallable.call (MutWrapper.new none) true).state.idle
     ∧ (MutCallable.call (MutWrapper.new none) true).assertOk = true) :=
  ⟨by decide, C6_inflight_counter_balanced (MutWrapper.new none) true (by decide)⟩

/-- C7: the fire-oneshot self-teardown runs on a freshly spawned worker
thread, never on the firing thread — the trace of the wrapper closure has no
teardown step tagged with the firing thread — and it begins only after the
handler has completed and the handoff slot has been read: with the slot
never filled the wrapper runs the handler and then blocks (no teardown step
appears), and with the slot filled the trace is handler, slot read on the
firing thread, then cell reclamation and close_timer on the worker thread,
using exactly the pair read from the slot. The slot itself is written by the
scheduling call exactly when the OS accepted the timer: fire_oneshot writes
(handle, cell pointer) on the Ok creation result and writes nothing on Err. -/
theorem C7_oneshot_handoff_and_worker_teardown (h p : Nat) (slot : Option (Nat × Nat))
    (env : OsEnv) :
    oneshot_wrapper_trace none = [(ThreadTag.firingThread, OneshotEvent.handlerRun)]
  ∧ oneshot_wrapper_trace (some (h, p)) =
      [(ThreadTag.firingThread, OneshotEvent.handlerRun),
       (ThreadTag.firingThread, OneshotEvent.slotRead h p),
       (ThreadTag.teardownWorker, OneshotEvent.cellReclaimed p),
       (ThreadTag.teardownWorker, OneshotEvent.teardownCloseTimer h)]
  ∧ teardownStepsOnFiringThread (oneshot_wrapper_trace slot) = []
  ∧ (fire_oneshot env).slotWritten =
      (match (schedule_signal_callback env).result with
       | Except.ok hh => some (hh, cellPtrId)
       | Except.error _ => none) := by
  refine ⟨rfl, rfl, ?_, ?_⟩
  · cases slot with
    | none => rfl
    | some pr => cases pr with | mk a b => rfl
  · cases hx : (schedule_signal_callback env).result <;> simp [fire_oneshot, hx]

/-- C8: the signal-backend notification handler runs no user logic itself —
it returns the cell unchanged and only produces a dispatch decision: a cell
hinted SlowFunction gets a dedicated freshly spawned thread, a cell hinted
QuickFunction or unhinted is forwarded to the shared quick-dispatch channel;
the quick-dispatch worker thread then executes the queued requests serially,
one call run to completion before the next, threading the cell state through
in FIFO order (one invocation record per queued request). -/
theorem C8_notification_dispatch (w : MutWrapper) (ctx d : Nat) (ps : List Bool) :
    (timer_callback { w with hint := some (CallbackHint.SlowFunction d) } ctx).1
        = DispatchDecision.spawnDedicatedThread ctx
  ∧ (timer_callback { w with hint := some CallbackHint.QuickFunction } ctx).1
        = DispatchDecision.sendToQuickDispatcher ctx
  ∧ (timer_callback { w with hint := none } ctx).1
        = DispatchDecision.sendToQuickDispatcher ctx
  ∧ (timer_callback w ctx).2 = w
  ∧ (quick_worker_run w ps).2.length = ps.length := by
  refine ⟨rfl, rfl, rfl, rfl, ?_⟩
  induction ps generalizing w with
  | nil => rfl
  | cons q rest ih => simp [quick_worker_run, ih]

/-- C9: closing a timer handle is idempotent on both backends: the first
close (or drop) takes the native handle — leaving none on unix, the invalid
default handle on windows — and runs the teardown steps; any further close
observes the absent or invalid handle, changes nothing and performs no
teardown step (no OS call, no wait). -/
theorem C9_close_idempotent (t : UnixTimer) (s : WindowsTimer)
    (a1 f1 a2 f2 i1 d1 p1 i2 d2 p2 : Bool) :
    ((t.close a1 f1).1).handle = none
  ∧ ((t.close a1 f1).1).close a2 f2 = ((t.close a1 f1).1, [])
  ∧ ((s.close i1 d1 p1).1).handle = 0
  ∧ ((s.close i1 d1 p1).1).close i2 d2 p2 = ((s.close i1 d1 p1).1, []) := by
  refine ⟨?_, ?_, ?_, ?_⟩
  · cases ht : t.handle <;> simp [UnixTimer.close, ht]
  · cases ht : t.handle <;> simp [UnixTimer.close, ht]
  · by_cases hs : s.handle = 0 <;> simp [WindowsTimer.close, hs]
  · by_cases hs : s.handle = 0 <;> simp [WindowsTimer.close, hs]

/-- C10: on the thread-pool backend both schedule_timer (via create_timer)
and change_period convert due and period from Duration to whole milliseconds
truncated to u32, that is (nanoseconds / 10^6) mod 2^32; the
WT_EXECUTEONLYONCE flag is set exactly when the converted period is 0, so
any period that truncates to 0 milliseconds — including the nonzero
sub-millisecond period of 500000 ns — is scheduled as a one-shot timer. -/
theorem C10_windows_millisecond_truncation (due period : Nat) (hint : Option CallbackHint) :
    (windows_create_timer_args due period hint).dueMs = (due / 1000000) % 4294967296
  ∧ (windows_create_timer_args due period hint).periodMs = (period / 1000000) % 4294967296
  ∧ windows_change_period_args due period
      = ((due / 1000000) % 4294967296, (period / 1000000) % 4294967296)
  ∧ (windows_create_timer_args due period hint).flags &&& WT_EXECUTEONLYONCE
      = (if (period / 1000000) % 4294967296 = 0 then WT_EXECUTEONLYONCE else 0)
  ∧ (windows_create_timer_args 0 500000 none).flags = WT_EXECUTEONLYONCE
  ∧ (500000 : Nat) ≠ 0 := by
  refine ⟨rfl, rfl, rfl, ?_, by decide, by decide⟩
  by_cases hp : (period / 1000000) % 4294967296 = 0 <;>
    rcases hint with _ | (_ | d) <;>
    simp [windows_create_timer_args, u32_cast, duration_as_millis, NANOS_PER_MILLI, hp,
      WT_EXECUTEONLYONCE, WT_EXECUTEDEFAULT, WT_EXECUTEINPERSISTENTTHREAD,
      WT_EXECUTELONGFUNCTION] <;>
    decide
